import Mathlib

/-
Shallow embedding of the Electron desktop shell in src/main.js of the
chore-list-app repository.  The shell spawns a Flask API child process,
waits for readiness (a text match on the stdout stream with a 1000 ms
settle delay, or a 3000 ms fallback timer), opens a window on the fixed
root URL, schedules a retry 1000 ms after a failed page load, and sends
a kill to the child process in the window-all-closed handler and in the
quit handler.  Event timing is modelled with explicit millisecond
timestamps; timers are explicit entries in the state.
-/

/-- Does the pattern occur at the head of the character list? -/
def beginsWith : List Char → List Char → Bool
  | _, [] => true
  | [], _ :: _ => false
  | c :: cs, p :: ps => c == p && beginsWith cs ps

/-- Does the pattern occur anywhere in the character list? -/
def containsSeq : List Char → List Char → Bool
  | [], pat => beginsWith [] pat
  | c :: cs, pat => beginsWith (c :: cs) pat || containsSeq cs pat

/-- Models the JavaScript test data.toString().includes(pat) used by the
stdout handler in startFlaskServer (main.js line 19). -/
def includesText (s pat : String) : Bool := containsSeq s.toList pat.toList

/-- The readiness text matched against the Flask stdout stream (main.js line 19). -/
def readinessText : String := "Running on"

/-- External events delivered to the handlers installed by startFlaskServer
(main.js lines 16 to 31): stdout data, stderr data, and the spawn error event. -/
inductive FEvent where
  | stdoutData (d : String)
  | stderrData (d : String)
  | errorEvt
deriving DecidableEq

/-- A timestamped event is a readiness event when it is stdout data whose text
contains the readiness text (main.js line 19). -/
def isReadyEvt (te : Nat × FEvent) : Bool :=
  match te.2 with
  | FEvent.stdoutData d => includesText d readinessText
  | _ => false

/-- A timestamped event is the spawn error event (main.js line 28). -/
def isErrorEvt (te : Nat × FEvent) : Bool :=
  match te.2 with
  | FEvent.errorEvt => true
  | _ => false

/-- One fold step computing the time at which the promise of startFlaskServer
is resolved: a readiness event at time t schedules resolve at t + 1000
(main.js line 20), and a promise resolves at the earliest resolve call. -/
def resolveStep (acc : Nat) (te : Nat × FEvent) : Nat :=
  if isReadyEvt te then min acc (te.1 + 1000) else acc

/-- Time at which the promise of startFlaskServer is resolved, given the
timestamped event stream: the earliest of the 3000 ms fallback timer
(main.js line 34) and t + 1000 for each readiness event at time t
(main.js lines 19 to 21).  A promise resolves exactly once, at the first
resolve call, so the earliest such time wins. -/
def resolveTime (tl : List (Nat × FEvent)) : Nat :=
  tl.foldl resolveStep 3000

/-- Time of the earliest spawn error event in the stream, if any: the error
handler calls reject (main.js lines 28 to 31), which settles the promise
only if it is still pending. -/
def firstErrorTime (tl : List (Nat × FEvent)) : Option Nat :=
  tl.foldl
    (fun acc te =>
      if isErrorEvt te then
        match acc with
        | none => some te.1
        | some t0 => some (min t0 te.1)
      else acc)
    none

/-- True when no event in the stream is a readiness event. -/
def noReadiness (tl : List (Nat × FEvent)) : Bool :=
  tl.all (fun te => !(isReadyEvt te))

/-- Outcome of the ready handler (main.js lines 70 to 80): either the awaited
promise resolved at time t and createWindow runs, or it rejected at time t
and the catch branch calls app.quit without ever creating a window. -/
inductive StartOutcome where
  | windowOpened (t : Nat)
  | quitApp (t : Nat)
deriving DecidableEq

/-- Semantics of await startFlaskServer() in the ready handler: the promise
settles at the earliest settling call.  It rejects when the earliest error
event precedes every resolve time; otherwise it resolves at resolveTime and
a later reject call is ignored, because a promise settles only once. -/
def startupResult (tl : List (Nat × FEvent)) : StartOutcome :=
  match firstErrorTime tl with
  | some te =>
      if te < resolveTime tl then StartOutcome.quitApp te
      else StartOutcome.windowOpened (resolveTime tl)
  | none => StartOutcome.windowOpened (resolveTime tl)

/-- The fixed root URL every loadURL call uses (main.js lines 52 and 65). -/
def rootURL : String := "http://localhost:5000"

/-- External events delivered to the window layer: the did-fail-load event
(main.js line 62), the closed event (main.js line 57), and the activate
event (main.js line 90). -/
inductive WEvent where
  | didFailLoad
  | closed
  | activate
deriving DecidableEq

/-- State of the window layer.  hasWindow mirrors whether the module level
mainWindow reference is non-null; retryTimers holds the fire times of
pending retry timers scheduled by the did-fail-load handler; loads logs
every loadURL invocation with its time and URL; nullDeref records that a
retry callback ran while mainWindow was null, in which case
mainWindow.loadURL dereferences null (main.js line 65). -/
structure WinState where
  hasWindow : Bool
  retryTimers : List Nat
  loads : List (Nat × String)
  nullDeref : Bool
deriving DecidableEq

/-- The empty window state before createWindow has run. -/
def initWinState : WinState :=
  { hasWindow := false, retryTimers := [], loads := [], nullDeref := false }

/-- createWindow (main.js lines 38 to 68): constructs the BrowserWindow and
immediately calls loadURL on the fixed root URL (main.js line 52). -/
def createWindow (t : Nat) (s : WinState) : WinState :=
  { s with hasWindow := true, loads := s.loads ++ [(t, rootURL)] }

/-- A retry timer fires at time ft: the callback calls mainWindow.loadURL
on the fixed root URL (main.js lines 64 to 66).  There is no null guard,
so when the window was closed in the meantime the callback dereferences
null, recorded in nullDeref. -/
def fireTimer (ft : Nat) (s : WinState) : WinState :=
  if s.hasWindow then { s with loads := s.loads ++ [(ft, rootURL)] }
  else { s with nullDeref := true }

/-- Fire every pending retry timer whose fire time has been reached by time t. -/
def fireDue (t : Nat) (s : WinState) : WinState :=
  (s.retryTimers.filter (fun ft => ft ≤ t)).foldl
    (fun acc ft => fireTimer ft acc)
    { s with retryTimers := s.retryTimers.filter (fun ft => ¬ ft ≤ t) }

/-- The installed window event handlers.  did-fail-load schedules exactly one
retry timer at t + 1000 (main.js lines 62 to 67); closed clears the
mainWindow reference (main.js lines 57 to 59); activate re-creates the
window only when mainWindow is null (main.js lines 90 to 94). -/
def handleEvent (t : Nat) (e : WEvent) (s : WinState) : WinState :=
  match e with
  | WEvent.didFailLoad => { s with retryTimers := s.retryTimers ++ [t + 1000] }
  | WEvent.closed => { s with hasWindow := false }
  | WEvent.activate => if s.hasWindow then s else createWindow t s

/-- Fire all remaining pending timers, in schedule order: every setTimeout
callback eventually runs. -/
def flushAll (s : WinState) : WinState :=
  s.retryTimers.foldl (fun acc ft => fireTimer ft acc) { s with retryTimers := [] }

/-- Run of the window layer: createWindow at time 0, then each timestamped
external event in order, firing due timers first, and finally every timer
still pending. -/
def runWindow (tl : List (Nat × WEvent)) : WinState :=
  flushAll (tl.foldl (fun s te => handleEvent te.1 te.2 (fireDue te.1 s))
    (createWindow 0 initWinState))

/-- Events on the exit paths: the window-all-closed event (main.js line 82)
and the quit event (main.js line 97).  In Electron a normal shutdown
delivers window-all-closed and then, because its handler calls app.quit,
the quit event as well. -/
inductive XEvent where
  | windowAllClosed
  | quitEvt
deriving DecidableEq

/-- State of the exit layer.  flaskSpawned mirrors whether the module level
flaskProcess reference is non-null; the source never resets it to null.
killCount counts the invocations of flaskProcess.kill.  quitRequested
records that app.quit was called. -/
structure ExitState where
  flaskSpawned : Bool
  killCount : Nat
  quitRequested : Bool
deriving DecidableEq

/-- The two exit handlers (main.js lines 82 to 88 and 97 to 101).  The
window-all-closed handler kills the Flask process when the reference is
non-null and then calls app.quit; the quit handler kills it again under
the same non-null test.  Neither handler consults the platform, so the
platform argument is ignored, faithful to the source. -/
def stepExit (platform : String) (s : ExitState) (e : XEvent) : ExitState :=
  match e with
  | XEvent.windowAllClosed =>
      let s1 := if s.flaskSpawned then { s with killCount := s.killCount + 1 } else s
      { s1 with quitRequested := true }
  | XEvent.quitEvt =>
      if s.flaskSpawned then { s with killCount := s.killCount + 1 } else s

/-- Run of the exit layer from a fresh state in which the Flask process was
spawned (or not) and no kill has been sent. -/
def runExit (platform : String) (spawned : Bool) (evs : List XEvent) : ExitState :=
  evs.foldl (stepExit platform)
    { flaskSpawned := spawned, killCount := 0, quitRequested := false }

/-- Options passed to spawn: a working directory and an environment mapping
variable names to values. -/
structure SpawnOptions where
  cwd : String
  env : String → Option String

/-- The command spawned by startFlaskServer (main.js line 11). -/
def flaskSpawnCmd : String := "python3"

/-- The argument list of the spawned command (main.js line 11). -/
def flaskSpawnArgs : List String := ["app.py"]

/-- The spawn options (main.js lines 12 to 13): cwd is the directory of the
shell module, and env is the inherited process environment spread first and
then FLASK_ENV bound to production, so the later binding overrides. -/
def flaskSpawnOptions (dirname : String) (processEnv : String → Option String) :
    SpawnOptions :=
  { cwd := dirname,
    env := fun k => if k = "FLASK_ENV" then some "production" else processEnv k }

/-- Every logged loadURL call in the state used the fixed root URL. -/
def allRoot (s : WinState) : Prop := ∀ p ∈ s.loads, p.2 = rootURL

/-- A concrete window state with a live window, used as a sample input. -/
def sWin : WinState :=
  { hasWindow := true, retryTimers := [], loads := [], nullDeref := false }

/-- A concrete inherited process environment, used as a sample input. -/
def samplePEnv : String → Option String :=
  fun k => if k = "PATH" then some "/usr/bin" else none

theorem resolveStep_le (acc : Nat) (te : Nat × FEvent) : resolveStep acc te ≤ acc := by
  unfold resolveStep
  split
  · exact min_le_left _ _
  · exact le_refl acc

theorem foldl_resolveStep_le (tl : List (Nat × FEvent)) (acc : Nat) :
    tl.foldl resolveStep acc ≤ acc := by
  induction tl generalizing acc with
  | nil => exact le_refl acc
  | cons te tl ih =>
      simp only [List.foldl_cons]
      exact le_trans (ih (resolveStep acc te)) (resolveStep_le acc te)

theorem foldl_resolveStep_le_ready (tl : List (Nat × FEvent)) (acc : Nat)
    (te : Nat × FEvent) (hmem : te ∈ tl) (hr : isReadyEvt te = true) :
    tl.foldl resolveStep acc ≤ te.1 + 1000 := by
  induction tl generalizing acc with
  | nil => cases hmem
  | cons hd tl ih =>
      simp only [List.foldl_cons]
      rcases List.mem_cons.mp hmem with h | h
      · subst h
        refine le_trans (foldl_resolveStep_le tl _) ?_
        unfold resolveStep
        rw [if_pos hr]
        exact min_le_right _ _
      · exact ih _ h

theorem foldl_resolveStep_no_ready (tl : List (Nat × FEvent)) (acc : Nat)
    (h : ∀ te ∈ tl, isReadyEvt te = false) :
    tl.foldl resolveStep acc = acc := by
  induction tl generalizing acc with
  | nil => rfl
  | cons hd tl ih =>
      simp only [List.foldl_cons]
      have hhd : isReadyEvt hd = false := h hd (List.mem_cons_self hd tl)
      have hstep : resolveStep acc hd = acc := by
        unfold resolveStep
        rw [hhd]
        rfl
      rw [hstep]
      exact ih acc (fun te hte => h te (List.mem_cons_of_mem hd hte))

theorem foldl_resolveStep_cases (tl : List (Nat × FEvent)) (acc : Nat) :
    tl.foldl resolveStep acc = acc ∨
      ∃ te ∈ tl, isReadyEvt te = true ∧ tl.foldl resolveStep acc = te.1 + 1000 := by
  induction tl generalizing acc with
  | nil => exact Or.inl rfl
  | cons hd tl ih =>
      simp only [List.foldl_cons]
      rcases ih (resolveStep acc hd) with h | ⟨te, hmem, hr, heq⟩
      · by_cases hhd : isReadyEvt hd = true
        · rcases le_total acc (hd.1 + 1000) with hle | hle
          · left
            rw [h]
            unfold resolveStep
            rw [if_pos hhd]
            exact Nat.min_eq_left hle
          · right
            refine ⟨hd, List.mem_cons_self hd tl, hhd, ?_⟩
            rw [h]
            unfold resolveStep
            rw [if_pos hhd]
            exact Nat.min_eq_right hle
        · left
          rw [h]
          unfold resolveStep
          rw [if_neg hhd]
      · right
        exact ⟨te, List.mem_cons_of_mem hd hmem, hr, heq⟩

/-- Claim C3: when the spawned API process emits no spawn error, the shell
opens the window at the resolution time of the readiness promise, which is
the first of the readiness text time plus the 1000 ms settle delay and the
3000 ms fallback; in particular it is at most 3000 ms, and when the
readiness text never appears it is exactly the 3000 ms fallback. -/
theorem startup_opens_at_first_of_readiness_or_fallback
    (tl : List (Nat × FEvent)) (hok : firstErrorTime tl = none) :
    startupResult tl = StartOutcome.windowOpened (resolveTime tl)
    ∧ resolveTime tl ≤ 3000
    ∧ (∀ te ∈ tl, isReadyEvt te = true → resolveTime tl ≤ te.1 + 1000)
    ∧ (noReadiness tl = true → resolveTime tl = 3000)
    ∧ (resolveTime tl = 3000 ∨
        ∃ te ∈ tl, isReadyEvt te = true ∧ resolveTime tl = te.1 + 1000) := by
  refine ⟨?_, ?_, ?_, ?_, ?_⟩
  · unfold startupResult
    rw [hok]
  · exact foldl_resolveStep_le tl 3000
  · intro te hmem hr
    exact foldl_resolveStep_le_ready tl 3000 te hmem hr
  · intro hnr
    apply foldl_resolveStep_no_ready
    intro te hte
    have hb := List.all_eq_true.mp hnr te hte
    simpa using hb
  · exact foldl_resolveStep_cases tl 3000

theorem startup_opens_at_first_of_readiness_or_fallback_witness :
    firstErrorTime [(500, FEvent.stdoutData "Running on all addresses")] = none
    ∧ startupResult [(500, FEvent.stdoutData "Running on all addresses")]
        = StartOutcome.windowOpened
            (resolveTime [(500, FEvent.stdoutData "Running on all addresses")])
    ∧ resolveTime [(500, FEvent.stdoutData "Running on all addresses")] ≤ 3000 := by
  have h := startup_opens_at_first_of_readiness_or_fallback
    [(500, FEvent.stdoutData "Running on all addresses")] (by decide)
  exact ⟨by decide, h.1, h.2.1⟩

/-- Claim C4 counterexample: a spawn error event emitted at 4000 ms, after the
3000 ms fallback has already resolved the readiness promise, does not abort
startup: the ready handler proceeds to create and open the window, so the
claim that every spawn failure exits the application without a window is
false on the code. -/
theorem spawn_error_after_fallback_still_opens_window :
    firstErrorTime [(4000, FEvent.errorEvt)] = some 4000
    ∧ startupResult [(4000, FEvent.errorEvt)] = StartOutcome.windowOpened 3000 := by
  constructor
  · decide
  · decide

/-- Claim C4 amended: when the spawn error event is emitted strictly before
the readiness promise resolves (in particular before the 3000 ms fallback),
the promise rejects, the catch branch quits the application, and no window
is ever created or opened. -/
theorem spawn_error_before_resolution_aborts_without_window
    (tl : List (Nat × FEvent)) (te : Nat)
    (h1 : firstErrorTime tl = some te) (h2 : te < resolveTime tl) :
    startupResult tl = StartOutcome.quitApp te
    ∧ ∀ t, startupResult tl ≠ StartOutcome.windowOpened t := by
  have hres : startupResult tl = StartOutcome.quitApp te := by
    unfold startupResult
    rw [h1]
    exact if_pos h2
  refine ⟨hres, ?_⟩
  intro t hcontra
  rw [hres] at hcontra
  exact StartOutcome.noConfusion hcontra

theorem spawn_error_before_resolution_aborts_without_window_witness :
    firstErrorTime [(10, FEvent.errorEvt)] = some 10
    ∧ 10 < resolveTime [(10, FEvent.errorEvt)]
    ∧ startupResult [(10, FEvent.errorEvt)] = StartOutcome.quitApp 10 := by
  have h := spawn_error_before_resolution_aborts_without_window
    [(10, FEvent.errorEvt)] 10 (by decide) (by decide)
  exact ⟨by decide, by decide, h.1⟩

/-- Claim C9: when the earliest spawn error event does not precede the
resolution time of the readiness promise, the rejection is ignored because
the promise has already resolved, and the shell creates and opens the
window anyway: the abort-on-spawn-failure behaviour holds only when the
error event precedes the resolution. -/
theorem late_spawn_error_ignored_window_opens
    (tl : List (Nat × FEvent)) (te : Nat)
    (h1 : firstErrorTime tl = some te) (h2 : resolveTime tl ≤ te) :
    startupResult tl = StartOutcome.windowOpened (resolveTime tl) := by
  unfold startupResult
  rw [h1]
  exact if_neg (Nat.not_lt.mpr h2)

theorem late_spawn_error_ignored_window_opens_witness :
    firstErrorTime [(3500, FEvent.errorEvt)] = some 3500
    ∧ resolveTime [(3500, FEvent.errorEvt)] ≤ 3500
    ∧ startupResult [(3500, FEvent.errorEvt)]
        = StartOutcome.windowOpened (resolveTime [(3500, FEvent.errorEvt)]) :=
  ⟨by decide, by decide,
    late_spawn_error_ignored_window_opens [(3500, FEvent.errorEvt)] 3500
      (by decide) (by decide)⟩

theorem allRoot_createWindow (t : Nat) (s : WinState) (h : allRoot s) :
    allRoot (createWindow t s) := by
  intro p hp
  have hp2 : p ∈ s.loads ++ [(t, rootURL)] := hp
  rcases List.mem_append.mp hp2 with hp3 | hp3
  · exact h p hp3
  · have hpe := List.mem_singleton.mp hp3
    subst hpe
    rfl

theorem allRoot_fireTimer (ft : Nat) (s : WinState) (h : allRoot s) :
    allRoot (fireTimer ft s) := by
  unfold fireTimer
  split
  · intro p hp
    have hp2 : p ∈ s.loads ++ [(ft, rootURL)] := hp
    rcases List.mem_append.mp hp2 with hp3 | hp3
    · exact h p hp3
    · have hpe := List.mem_singleton.mp hp3
      subst hpe
      rfl
  · intro p hp
    exact h p hp

theorem allRoot_fireList (l : List Nat) (s : WinState) (h : allRoot s) :
    allRoot (l.foldl (fun acc ft => fireTimer ft acc) s) := by
  induction l generalizing s with
  | nil => exact h
  | cons ft l ih =>
      simp only [List.foldl_cons]
      exact ih _ (allRoot_fireTimer ft s h)

theorem allRoot_fireDue (t : Nat) (s : WinState) (h : allRoot s) :
    allRoot (fireDue t s) := by
  apply allRoot_fireList
  intro p hp
  exact h p hp

theorem allRoot_handleEvent (t : Nat) (e : WEvent) (s : WinState) (h : allRoot s) :
    allRoot (handleEvent t e s) := by
  cases e with
  | didFailLoad =>
      intro p hp
      exact h p hp
  | closed =>
      intro p hp
      exact h p hp
  | activate =>
      show allRoot (if s.hasWindow = true then s else createWindow t s)
      split
      · exact h
      · exact allRoot_createWindow t s h

theorem allRoot_flushAll (s : WinState) (h : allRoot s) : allRoot (flushAll s) := by
  apply allRoot_fireList
  intro p hp
  exact h p hp

theorem allRoot_runEvents (tl : List (Nat × WEvent)) (s : WinState) (h : allRoot s) :
    allRoot (tl.foldl (fun s te => handleEvent te.1 te.2 (fireDue te.1 s)) s) := by
  induction tl generalizing s with
  | nil => exact h
  | cons te tl ih =>
      simp only [List.foldl_cons]
      exact ih _ (allRoot_handleEvent te.1 te.2 _ (allRoot_fireDue te.1 s h))

theorem allRoot_runWindow (tl : List (Nat × WEvent)) : allRoot (runWindow tl) := by
  unfold runWindow
  apply allRoot_flushAll
  apply allRoot_runEvents
  apply allRoot_createWindow
  intro p hp
  exact absurd hp (List.not_mem_nil p)

/-- Claim C6: in every run of the window layer, every loadURL invocation,
whether from the initial createWindow, from a retry timer scheduled by the
did-fail-load handler, or from a window re-created by the activate handler,
uses the one fixed root URL; the shell never loads any other URL. -/
theorem every_load_uses_fixed_root_url (tl : List (Nat × WEvent)) :
    ((runWindow tl).loads.all (fun p => p.2 == rootURL)) = true := by
  rw [List.all_eq_true]
  intro q hq
  exact beq_iff_eq.mpr (allRoot_runWindow tl q hq)

/-- Claim C2: each did-fail-load event at time t appends exactly one retry
timer, with fire time t + 1000, leaving the load log and the window
reference unchanged; and when that timer fires while the window still
exists, the retry performs exactly one further load of the fixed root URL,
so a load failure is recovered by a single scheduled retry rather than
being permanent. -/
theorem load_failure_schedules_exactly_one_retry (s : WinState) (t : Nat) :
    (handleEvent t WEvent.didFailLoad s).retryTimers = s.retryTimers ++ [t + 1000]
    ∧ (handleEvent t WEvent.didFailLoad s).loads = s.loads
    ∧ (handleEvent t WEvent.didFailLoad s).hasWindow = s.hasWindow
    ∧ (s.hasWindow = true →
        (fireTimer (t + 1000) s).loads = s.loads ++ [(t + 1000, rootURL)]) := by
  refine ⟨rfl, rfl, rfl, ?_⟩
  intro hwin
  unfold fireTimer
  rw [if_pos hwin]

theorem load_failure_schedules_exactly_one_retry_witness :
    (handleEvent 5 WEvent.didFailLoad sWin).retryTimers = [5 + 1000]
    ∧ (fireTimer (5 + 1000) sWin).loads = [(5 + 1000, rootURL)] := by
  have h := load_failure_schedules_exactly_one_retry sWin 5
  refine ⟨?_, ?_⟩
  · rw [h.1]
    rfl
  · rw [h.2.2.2 rfl]
    rfl

/-- Claim C8: the unguarded retry is reachable on a null window.  Concrete
trace: the page load fails at 100 ms, scheduling a retry at 1100 ms; the
window is closed at 200 ms, clearing the mainWindow reference; when the
retry timer fires, the callback calls loadURL on the null reference, which
the model records as a null dereference. -/
theorem retry_after_close_dereferences_null :
    (runWindow [(100, WEvent.didFailLoad), (200, WEvent.closed)]).nullDeref = true := by
  decide

theorem stepExit_spawned_killCount (p : String) (s : ExitState) (e : XEvent)
    (h : s.flaskSpawned = true) :
    (stepExit p s e).killCount = s.killCount + 1
    ∧ (stepExit p s e).flaskSpawned = true := by
  cases e <;> simp [stepExit, h]

theorem foldExit_spawned_killCount (p : String) (evs : List XEvent) (s : ExitState)
    (h : s.flaskSpawned = true) :
    (evs.foldl (stepExit p) s).killCount = s.killCount + evs.length := by
  induction evs generalizing s with
  | nil => simp
  | cons e evs ih =>
      simp only [List.foldl_cons, List.length_cons]
      rcases stepExit_spawned_killCount p s e h with ⟨hk, hs⟩
      rw [ih (stepExit p s e) hs, hk]
      omega

/-- Claim C1 counterexample: on a normal shutdown both exit paths fire, the
window-all-closed handler and then, because that handler calls app.quit,
the quit handler.  The flaskProcess reference is never cleared, so each
handler passes its non-null test and kill is invoked twice, not exactly
once. -/
theorem both_exit_paths_kill_twice :
    (runExit "linux" true [XEvent.windowAllClosed, XEvent.quitEvt]).killCount = 2
    ∧ (runExit "linux" true [XEvent.windowAllClosed, XEvent.quitEvt]).killCount ≠ 1 := by
  constructor
  · rfl
  · decide

/-- Claim C1 amended: when the API process was spawned, every exit event
delivered to the shell invokes kill on the child process, so the kill is
sent once per triggered exit path, the total count equalling the number of
exit events; in particular it is sent at least once on any exit, but twice,
not exactly once, when both the window-closed and app-quit paths fire. -/
theorem kill_sent_once_per_exit_path (p : String) (evs : List XEvent) :
    (runExit p true evs).killCount = evs.length := by
  unfold runExit
  rw [foldExit_spawned_killCount p evs _ rfl]
  exact Nat.zero_add evs.length

/-- Claim C5: when the API process was spawned and at least one exit event
(window-all-closed or quit) occurs, kill is invoked on the child process at
least once: no child process survives the shell exit unkilled. -/
theorem child_process_killed_on_exit (p : String) (evs : List XEvent)
    (h : evs ≠ []) : 1 ≤ (runExit p true evs).killCount := by
  unfold runExit
  rw [foldExit_spawned_killCount p evs _ rfl]
  have hlen := List.length_pos.mpr h
  omega

theorem child_process_killed_on_exit_witness :
    ([XEvent.windowAllClosed] : List XEvent) ≠ []
    ∧ 1 ≤ (runExit "linux" true [XEvent.windowAllClosed]).killCount :=
  ⟨by decide, child_process_killed_on_exit "linux" [XEvent.windowAllClosed] (by decide)⟩

/-- Claim C10: the window-all-closed handler calls app.quit unconditionally:
it consults no platform information, so on every platform, and from every
state, the application quits when all windows are closed, with no macOS
stay-resident exception. -/
theorem window_all_closed_quits_on_every_platform (p : String) (s : ExitState) :
    (stepExit p s XEvent.windowAllClosed).quitRequested = true := rfl

/-- Claim C7: the shell spawns the API with command python3 and argument
app.py, with cwd set to the directory of the shell module, and with the
inherited process environment extended so that FLASK_ENV is bound to
production while every other variable keeps its inherited value. -/
theorem spawn_uses_shell_dir_and_production_env
    (dirname : String) (processEnv : String → Option String) :
    flaskSpawnCmd = "python3"
    ∧ flaskSpawnArgs = ["app.py"]
    ∧ (flaskSpawnOptions dirname processEnv).cwd = dirname
    ∧ (flaskSpawnOptions dirname processEnv).env "FLASK_ENV" = some "production"
    ∧ ∀ k, k ≠ "FLASK_ENV" →
        (flaskSpawnOptions dirname processEnv).env k = processEnv k := by
  refine ⟨rfl, rfl, rfl, ?_, ?_⟩
  · show (if ("FLASK_ENV" : String) = "FLASK_ENV" then some "production"
      else processEnv "FLASK_ENV") = some "production"
    rw [if_pos rfl]
  · intro k hk
    show (if k = "FLASK_ENV" then some "production" else processEnv k) = processEnv k
    rw [if_neg hk]

theorem spawn_uses_shell_dir_and_production_env_witness :
    (flaskSpawnOptions "/repo" samplePEnv).cwd = "/repo"
    ∧ (flaskSpawnOptions "/repo" samplePEnv).env "FLASK_ENV" = some "production"
    ∧ (flaskSpawnOptions "/repo" samplePEnv).env "PATH" = samplePEnv "PATH" := by
  have h := spawn_uses_shell_dir_and_production_env "/repo" samplePEnv
  exact ⟨h.2.2.1, h.2.2.2.1, h.2.2.2.2 "PATH" (by decide)⟩
